import Mathlib

/-
Verification of the Abstract-Image-Generator repository against its
natural-language specification.

The development shallowly embeds the decision-relevant parts of the
repository's Python scripts:
  * src/scripts/generate_art.py     (model loading, denormalization)
  * src/scripts/generate_variations.py (style-id validation, CLI options)
  * src/scripts/train_conditional_gan.py (startup sequencing, mock cluster
    mapping, imbalance-based lambda adjustment, save-directory clearing,
    resume handling)
  * backend/main.py                 (the POST /generate endpoint)

Filesystem state is modelled as a Bool-valued predicate over path strings,
randomness as an explicit stream of naturals, and each script run as a pure
function from an environment to an outcome together with an ordered trace of
observable events (printed messages, writes, trainer construction, ...).
Python floats on the relevant code paths carry exact small rationals, so they
are modelled by Rat.
-/

namespace AbstractArt

/-- Model of Python `str.startswith` / option-prefix tests, phrased over the
underlying character lists so that it evaluates inside the kernel. -/
def strIsPrefixOf (p s : String) : Bool := p.data.isPrefixOf s.data

/-- Model of Python `str.endswith`, phrased over the underlying character
lists so that it evaluates inside the kernel. -/
def strEndsWith (s suf : String) : Bool := suf.data.isSuffixOf s.data

/-- Model of `os.path.join` for the relative-second-component case, which is
the only case the scripts exercise. -/
def joinPath (a b : String) : String := a ++ "/" ++ b

/-! ## generate_art.py: denormalization (generate_images, lines 42-60) -/

/-- Model of `torch.clamp(x, lo, hi)` on a single entry. -/
def clampRat (lo hi x : Rat) : Rat := max lo (min x hi)

/-- Entrywise denormalization performed by `generate_images` before saving:
`(x + 1) / 2` followed by `torch.clamp(_, 0, 1)` (generate_art.py lines
57-58). -/
def denormalize (x : Rat) : Rat := clampRat 0 1 ((x + 1) / 2)

/-! ## generate_art.py: model-file loading (main, lines 81-93) -/

/-- Model of a state dict: an association list from parameter names to
(abstracted integer-coded) tensor payloads. -/
abbrev Weights := List (String × Int)

/-- Parameter names of a state dict, the data `load_state_dict` checks. -/
def keysOf (w : Weights) : List String := w.map Prod.fst

/-- Modelled from the spec: the structured "full checkpoint" artifact written
by the trainer (`lib/gan_trainer.py`, not under src/) nests the weights under
named keys; generate_art.py line 89 reads its `generator_state_dict` entry. -/
structure FullCheckpoint where
  epoch : Nat
  generator_state_dict : Weights
  discriminator_state_dict : Weights
deriving DecidableEq

/-- The two on-disk forms a generator model file can take: a bare
generator-weights state dict, or a structured full checkpoint. -/
inductive ModelFile
  | stateDict (w : Weights)
  | checkpoint (c : FullCheckpoint)
deriving DecidableEq

/-- Keys of the top-level dict returned by `torch.load` for each form; for a
full checkpoint these are the container keys, not parameter names. -/
def topLevelKeys : ModelFile → List String
  | .stateDict w => keysOf w
  | .checkpoint _ => ["epoch", "generator_state_dict", "discriminator_state_dict"]

/-- Which of the two forms a load attempt interprets the file as. -/
inductive LoadForm
  | bareForm
  | fullForm
deriving DecidableEq

/-- Result of generate_art.py's loading block: the weights installed on
success, the ordered list of forms attempted, and the `sys.exit` code if both
attempts failed. -/
structure LoadOutcome where
  loaded : Option Weights
  attempts : List LoadForm
  exitCode : Option Nat
deriving DecidableEq

/-- Model of generate_art.py lines 81-93: first
`generator.load_state_dict(torch.load(path))` (the bare form, succeeding iff
the file's top-level keys are the generator's parameter names), and on
exception `checkpoint = torch.load(path);
generator.load_state_dict(checkpoint['generator_state_dict'])` (the
structured form); if that also fails, print the error and `sys.exit(1)`. -/
def load_generator (expected : List String) (file : ModelFile) : LoadOutcome :=
  match file with
  | .stateDict w =>
    if keysOf w == expected then
      { loaded := some w, attempts := [.bareForm], exitCode := none }
    else
      -- second attempt: indexing the bare dict with 'generator_state_dict'
      -- raises KeyError (or the inner load fails), so the run exits
      { loaded := none, attempts := [.bareForm, .fullForm], exitCode := some 1 }
  | .checkpoint c =>
    if topLevelKeys (.checkpoint c) == expected then
      -- reachable only if the generator's parameter names coincide with the
      -- checkpoint container keys; the container itself is then installed
      { loaded := some [], attempts := [.bareForm], exitCode := none }
    else if keysOf c.generator_state_dict == expected then
      { loaded := some c.generator_state_dict
        attempts := [.bareForm, .fullForm]
        exitCode := none }
    else
      { loaded := none, attempts := [.bareForm, .fullForm], exitCode := some 1 }

/-! ## generate_variations.py: main (lines 247-304) -/

/-- Observable events of a generate_variations.py run. -/
inductive GVEvent
  | printed (s : String)
  | madeOutputDir (d : String)
  | savedImage (p : String)
deriving DecidableEq

/-- Outcome of a generate_variations.py run. -/
inductive GVOutcome
  | exited (code : Nat)
  | finished
deriving DecidableEq

/-- Model of the per-variation loop (generate_variations.py lines 283-304):
each iteration either produces an image (saved, and its path printed for the
web app) or raises, in which case the error is reported and the script exits
with status 1. The image-processing payload of an iteration is abstracted as
its result. -/
def generate_variations_loop : List (Except String String) → List GVEvent × GVOutcome
  | [] => ([], .finished)
  | Except.ok path :: rest =>
    let r := generate_variations_loop rest
    (GVEvent.savedImage path :: GVEvent.printed path :: r.1, r.2)
  | Except.error m :: _ =>
    ([GVEvent.printed ("Error creating variation: " ++ m)], .exited 1)

/-- Model of generate_variations.py `main` after argument parsing (lines
266-304): validate the style id (`args.style < 0 or args.style > 14` exits
with status 1 before anything else), then create the output directory and run
the variation loop. -/
def generate_variations_main (style : Int) (output_dir : String)
    (results : List (Except String String)) : GVOutcome × List GVEvent :=
  if style < 0 ∨ 14 < style then
    (.exited 1,
     [GVEvent.printed "Oops! Style ID must be between 0 and 14.",
      GVEvent.printed "We discovered exactly 15 unique art styles (0-14)."])
  else
    let r := generate_variations_loop results
    (r.2, GVEvent.madeOutputDir output_dir ::
          GVEvent.printed ("Creating variations for style " ++ toString style) :: r.1)

/-! ## backend/main.py: POST /generate (lines 34-62) -/

/-- The long options generate_variations.py's argument parser declares
(lines 254-264), plus the automatic help option. -/
def acceptedLongOptions : List String :=
  ["--help", "--style", "--variation_type", "--seed", "--output_dir", "--num_variations"]

/-- Model of argparse long-option recognition with default abbreviation
matching: a token is recognized iff it is exactly a declared option or is a
prefix of exactly one declared option. -/
def recognizesOption (tok : String) : Bool :=
  acceptedLongOptions.contains tok ||
    (acceptedLongOptions.filter (fun o => strIsPrefixOf tok o)).length == 1

/-- The argv elements argparse treats as long-option tokens. -/
def optionTokens (cmd : List String) : List String :=
  cmd.filter (fun t => strIsPrefixOf "--" t)

/-- Model of the argparse acceptance check: parsing succeeds only if every
long-option token is recognized; otherwise argparse reports unrecognized
arguments and exits. -/
def argparse_accepts (cmd : List String) : Bool :=
  (optionTokens cmd).all recognizesOption

/-- Exit status of the generate_variations.py subprocess: argparse rejects an
unrecognized option with exit status 2 before the script body runs; the exit
status of the body (had parsing succeeded) is abstracted as `bodyExit`. -/
def run_generate_variations (cmd : List String) (bodyExit : Nat) : Nat :=
  if argparse_accepts cmd then bodyExit else 2

/-- Model of the subprocess command built by backend/main.py lines 44-53. -/
def build_generate_cmd (style : Int) (variation : String) (numVariations : Int)
    (seed : Option Int) (outputDir : String) : List String :=
  ["python", "generate_variations.py",
   "--style", toString style,
   "--variation", variation,
   "--output-dir", outputDir,
   "--num-variations", toString numVariations,
   "--no-db"] ++
  (match seed with
   | some s => ["--seed", toString s]
   | none => [])

/-- Response of the POST /generate endpoint. -/
inductive ApiResponse
  | images (paths : List String)
  | serverError (status : Nat) (err : String)
deriving DecidableEq

/-- Model of backend/main.py `generate_art` (lines 34-62): build the command,
run the subprocess with `check=True` (a non-zero exit raises
CalledProcessError, answered with a 500 JSON error carrying stderr), and on
success return the stdout lines ending in `.png`. -/
def generate_art_endpoint (style : Int) (variation : String) (numVariations : Int)
    (seed : Option Int) (bodyExit : Nat) (stdoutLines : List String)
    (stderrText : String) : ApiResponse :=
  let cmd := build_generate_cmd style variation numVariations seed "generated_api"
  let code := run_generate_variations cmd bodyExit
  if code = 0 then
    .images (stdoutLines.filter (fun l => strEndsWith l ".png"))
  else
    .serverError 500 stderrText

/-! ## train_conditional_gan.py -/

/-- Resolved command-line arguments of train_conditional_gan.py (parse_args,
lines 11-58); `lambda_style` and the learning rates are exact rationals. -/
structure Args where
  data_dir : String
  cluster_mapping : String
  latent_dim : Nat
  num_styles : Nat
  img_size : Nat
  batch_size : Nat
  num_epochs : Nat
  lr_g : Rat
  lr_d : Rat
  lambda_style : Rat
  save_dir : String
  log_interval : Nat
  save_interval : Nat
  num_workers : Nat
  resume : Option String
deriving DecidableEq

/-- One entry of clustering_results/cluster_stats.json: per-style count and
percentage. -/
structure StyleStat where
  count : Nat
  percentage : Rat
deriving DecidableEq

/-- Environment a training run observes: the project root resolved from
`__file__`, the filesystem at startup, directory listings, the stream of
values drawn by `random.randint`, the parsed content of cluster_stats.json,
the result of data-loader construction (dataset size, or the exception
message), and the behavior of `trainer.load_checkpoint` (resumed epoch, or
the exception message). -/
structure Env where
  projectRoot : String
  pathExists : String → Bool
  listing : String → List String
  rand : Nat → Nat
  statsContent : List (String × StyleStat)
  loaderResult : Except String Nat
  loadCheckpoint : String → Except String Nat

/-- The dataset directory path resolved at line 91. -/
def dataDirOf (env : Env) (args : Args) : String := joinPath env.projectRoot args.data_dir

/-- The cluster-mapping path resolved at line 92. -/
def mappingPathOf (env : Env) (args : Args) : String :=
  joinPath env.projectRoot args.cluster_mapping

/-- The save directory resolved at line 93. -/
def saveDirOf (env : Env) (args : Args) : String := joinPath env.projectRoot args.save_dir

/-- The cluster-statistics path resolved at line 127. -/
def statsPathOf (env : Env) : String :=
  joinPath env.projectRoot (joinPath "clustering_results" "cluster_stats.json")

/-- Whether a path lies inside a directory (or is the directory itself), the
set of paths `shutil.rmtree` removes. -/
def isInside (dir p : String) : Bool := strIsPrefixOf (dir ++ "/") p || p == dir

/-- Filesystem after `shutil.rmtree dir`. -/
def rmtreeFs (fs : String → Bool) (dir : String) : String → Bool :=
  fun p => fs p && !(isInside dir p)

/-- Model of `random.randint(lo, hi)` (inclusive bounds) driven by one raw
draw from the stream. -/
def randint (lo hi : Nat) (r : Nat) : Nat := lo + r % (hi - lo + 1)

/-- Model of `create_mock_cluster_mapping` (lines 60-74): every `.jpg` entry
of the data-directory listing is assigned `random.randint(0, num_styles - 1)`. -/
def create_mock_cluster_mapping (files : List String) (num_styles : Nat)
    (rand : Nat → Nat) : List (String × Nat) :=
  ((files.filter (fun f => strEndsWith f ".jpg")).enum).map
    (fun p => (p.2, randint 0 (num_styles - 1) (rand p.1)))

/-- Observable events of a training-script run, in program order. -/
inductive Event
  | printed (s : String)
  | wroteMockMapping (m : List (String × Nat))
  | createdLoader (datasetSize : Nat)
  | clearedSaveDir
  | initTrainer
  | loadedCheckpoint (path : String) (epoch : Nat)
  | savedConfig
  | startedTraining
deriving DecidableEq

/-- Outcome of a training-script run: `sys.exit`, an uncaught exception, or
entry into the training loop with the resolved start epoch, configuration and
dataset size. -/
inductive Outcome
  | exited (code : Nat)
  | crashed (msg : String)
  | trained (start_epoch : Nat) (cfg : Args) (dataset_size : Nat)
deriving DecidableEq

/-- The warning printed at line 178 when the resume checkpoint is absent. -/
def warnNotFound (p : String) : String :=
  "Warning: Checkpoint not found at " ++ p ++ ", starting from scratch"

/-- The message printed at line 156 before the save directory is removed. -/
def clearingMsg : String :=
  "Clearing existing training directory to avoid architecture conflicts..."

/-- Model of lines 100-112: if the cluster mapping is absent, warn, build the
mock mapping, and persist it (the filesystem afterwards contains the mapping
path). Returns the filesystem after the phase and its events. -/
def mappingPhase (env : Env) (args : Args) : (String → Bool) × List Event :=
  let mp := mappingPathOf env args
  if env.pathExists mp then
    (env.pathExists, [])
  else
    let mock := create_mock_cluster_mapping (env.listing (dataDirOf env args))
      args.num_styles env.rand
    (fun p => p == mp || env.pathExists p,
     [Event.printed ("Warning: Cluster mapping not found at " ++ mp),
      Event.printed "Creating mock cluster mapping for testing...",
      Event.wroteMockMapping mock,
      Event.printed ("Mock cluster mapping saved to " ++ mp)])

/-- The counts `min`/`max` range over: one per entry of cluster_stats.json. -/
def countsList (stats : List (String × StyleStat)) : List Nat :=
  stats.map (fun kv => kv.2.count)

/-- Python `min` over a nonempty list ([] mapped to 0; the caller guards
emptiness the way the script's ValueError does). -/
def listMinN : List Nat → Nat
  | [] => 0
  | h :: t => t.foldl Nat.min h

/-- Python `max` over a nonempty list ([] mapped to 0). -/
def listMaxN : List Nat → Nat
  | [] => 0
  | h :: t => t.foldl Nat.max h

/-- The imbalance ratio computed at lines 135/144: `max_count / min_count`
in exact arithmetic. -/
def imbalance_ratio (counts : List Nat) : Rat :=
  (listMaxN counts : Rat) / (listMinN counts : Rat)

/-- Model of lines 143-147: `lambda_style` is multiplied by 1.5 exactly when
the imbalance ratio strictly exceeds 5. -/
def adjust_lambda_style (counts : List Nat) (args : Args) : Args :=
  if 5 < imbalance_ratio counts then
    { args with lambda_style := args.lambda_style * (3 / 2) }
  else
    args

/-- Model of lines 126-147, the cluster-statistics block inside the loader
`try`: skipped when cluster_stats.json is absent; otherwise analyzes the
counts and adjusts `lambda_style`. Returns `none` when the Python code would
raise (empty stats make `min()` raise ValueError before any analysis print; a
zero minimum count makes the ratio print raise ZeroDivisionError), which the
enclosing `except` turns into an exit. -/
def statsPhase (statsThere : Bool) (stats : List (String × StyleStat))
    (args : Args) : Option Args × List Event :=
  if statsThere then
    let counts := countsList stats
    if counts.isEmpty then
      (none, [])
    else
      let total := counts.foldl (· + ·) 0
      let mn := listMinN counts
      let mx := listMaxN counts
      let pre := [Event.printed "Cluster Analysis:",
                  Event.printed ("Total images: " ++ toString total),
                  Event.printed ("Smallest cluster: " ++ toString mn),
                  Event.printed ("Largest cluster: " ++ toString mx)]
      if mn = 0 then
        (none, pre)
      else
        let r := imbalance_ratio counts
        let pre2 := pre ++ [Event.printed ("Imbalance ratio: " ++ toString r)]
        if 5 < r then
          (some (adjust_lambda_style counts args),
           pre2 ++ [Event.printed "Increased style loss weight due to cluster imbalance"])
        else
          (some (adjust_lambda_style counts args), pre2)
  else
    (some args, [])

/-- Model of lines 171-178: with no `--resume` the start epoch is 0; with a
resume path, a missing file yields a warning and epoch 0, an existing file is
loaded, and a loading exception propagates (no surrounding try/except). -/
def resumePhase (fs : String → Bool) (env : Env) (args : Args) :
    Except String Nat × List Event :=
  match args.resume with
  | none => (.ok 0, [])
  | some p =>
    if fs p then
      match env.loadCheckpoint p with
      | .ok e => (.ok e, [Event.loadedCheckpoint p e,
                          Event.printed ("Resumed training from epoch " ++ toString e)])
      | .error m => (.error m, [])
    else
      (.ok 0, [Event.printed (warnNotFound p)])

/-- Model of lines 153-200 after the loader/stats block succeeded: clear a
pre-existing save directory, construct the trainer, process `--resume`, save
the configuration and enter training. `evPre` carries the earlier events. -/
def afterStats (env : Env) (args : Args) (fs1 : String → Bool)
    (evPre : List Event) (args2 : Args) (n : Nat) : Outcome × List Event :=
  let sd := saveDirOf env args
  let clear :=
    if fs1 sd then
      (rmtreeFs fs1 sd, [Event.printed clearingMsg, Event.clearedSaveDir])
    else
      (fs1, ([] : List Event))
  match resumePhase clear.1 env args with
  | (.error m, evR) =>
    (.crashed m, evPre ++ clear.2 ++ [Event.initTrainer] ++ evR)
  | (.ok e0, evR) =>
    (.trained e0 args2 n,
     evPre ++ clear.2 ++ [Event.initTrainer] ++ evR ++
       [Event.savedConfig, Event.startedTraining])

/-- Model of train_conditional_gan.py `main` (lines 76-200): check the
dataset directory (missing: print the error and `sys.exit(1)`), synthesize a
missing cluster mapping, build the data loader (an exception: print and
`sys.exit(1)`), run the cluster-statistics analysis inside the same `try`,
then clear the save directory, construct the trainer, handle resume, persist
the configuration and start training. -/
def trainMain (env : Env) (args : Args) : Outcome × List Event :=
  let data_dir := dataDirOf env args
  if env.pathExists data_dir then
    let mp := mappingPhase env args
    match env.loaderResult with
    | .error e =>
      (.exited 1, mp.2 ++ [Event.printed "Creating data loader...",
                           Event.printed ("Error creating data loader: " ++ e)])
    | .ok n =>
      let evLoad := [Event.printed "Creating data loader...", Event.createdLoader n]
      match statsPhase (mp.1 (statsPathOf env)) env.statsContent args with
      | (none, evS) =>
        (.exited 1, mp.2 ++ evLoad ++ evS ++
          [Event.printed "Error creating data loader: exception in cluster analysis"])
      | (some args2, evS) =>
        afterStats env args mp.1 (mp.2 ++ evLoad ++ evS) args2 n
  else
    (.exited 1, [Event.printed ("Error: Dataset directory not found at " ++ data_dir)])

/-! ## Helper lemmas -/

/-- A Bool-valued `all` is false as soon as one member fails the predicate. -/
theorem all_false_of_mem {α : Type} {p : α → Bool} {l : List α} {a : α}
    (ha : a ∈ l) (hp : p a = false) : l.all p = false := by
  induction l with
  | nil => cases ha
  | cons x xs ih =>
    rcases List.mem_cons.mp ha with h | h
    · subst h
      simp [List.all_cons, hp]
    · simp [List.all_cons, ih h]

/-- The default configuration of parse_args (train_conditional_gan.py lines
11-58), used to instantiate universally quantified theorems. -/
def defaultArgs : Args where
  data_dir := "abstract_art_512"
  cluster_mapping := "clustering_results/cluster_mapping.json"
  latent_dim := 128
  num_styles := 15
  img_size := 512
  batch_size := 3
  num_epochs := 100
  lr_g := 1 / 10000
  lr_d := 1 / 10000
  lambda_style := 8
  save_dir := "gan_training"
  log_interval := 20
  save_interval := 200
  num_workers := 2
  resume := none

/-- The mapping phase leaves every path other than the mapping path as it
was on disk. -/
theorem mappingPhase_fst_ne (env : Env) (args : Args) (q : String)
    (h : q ≠ mappingPathOf env args) :
    (mappingPhase env args).1 q = env.pathExists q := by
  by_cases hmp : env.pathExists (mappingPathOf env args) = true
  · simp [mappingPhase, hmp]
  · simp [mappingPhase, hmp, h]

/-- The mapping phase emits only prints and the mock-mapping write. -/
theorem mappingPhase_events (env : Env) (args : Args) :
    Event.initTrainer ∉ (mappingPhase env args).2 ∧
    Event.startedTraining ∉ (mappingPhase env args).2 ∧
    (∀ q k, Event.loadedCheckpoint q k ∉ (mappingPhase env args).2) := by
  by_cases hmp : env.pathExists (mappingPathOf env args) = true
  · simp [mappingPhase, hmp]
  · simp [mappingPhase, hmp]

/-- The cluster-statistics phase emits only prints. -/
theorem statsPhase_no_load (b : Bool) (stats : List (String × StyleStat))
    (args : Args) (q : String) (k : Nat) :
    Event.loadedCheckpoint q k ∉ (statsPhase b stats args).2 := by
  cases b with
  | false => simp [statsPhase]
  | true =>
    by_cases hc : (countsList stats).isEmpty = true
    · simp [statsPhase, hc]
    · by_cases hmn : listMinN (countsList stats) = 0
      · simp [statsPhase, hc, hmn]
      · by_cases hr5 : 5 < imbalance_ratio (countsList stats)
        · simp [statsPhase, hc, hmn, hr5]
        · simp [statsPhase, hc, hmn, hr5]

/-- With no `--resume`, or a found or absent checkpoint, the resume phase is
determined by the filesystem at the resume path and the loader behavior. -/
theorem resumePhase_eq (fs : String → Bool) (env : Env) (args : Args) (p : String)
    (hr : args.resume = some p) :
    resumePhase fs env args =
      if fs p then
        match env.loadCheckpoint p with
        | .ok e => (.ok e, [Event.loadedCheckpoint p e,
                            Event.printed ("Resumed training from epoch " ++ toString e)])
        | .error m => (.error m, [])
      else (.ok 0, [Event.printed (warnNotFound p)]) := by
  unfold resumePhase
  rw [hr]

/-- When the dataset directory exists, the loader succeeds and the
cluster-statistics phase does not raise, the run proceeds to the
save-directory / trainer / resume sequence. -/
theorem trainMain_reach (env : Env) (args : Args) (n : Nat) (args2 : Args)
    (evS : List Event)
    (hd : env.pathExists (dataDirOf env args) = true)
    (hl : env.loaderResult = .ok n)
    (hs : statsPhase ((mappingPhase env args).1 (statsPathOf env))
            env.statsContent args = (some args2, evS)) :
    trainMain env args = afterStats env args (mappingPhase env args).1
      ((mappingPhase env args).2 ++
        [Event.printed "Creating data loader...", Event.createdLoader n] ++ evS)
      args2 n := by
  simp [trainMain, hd, hl, hs]

/-- Without `--resume` the resume phase is a no-op at epoch 0. -/
theorem resumePhase_none (fs : String → Bool) (env : Env) (args : Args)
    (hr : args.resume = none) : resumePhase fs env args = (.ok 0, []) := by
  unfold resumePhase
  rw [hr]

/-- Every style id in the mock cluster mapping is in range [0, num_styles). -/
theorem create_mock_values_lt (files : List String) (ns : Nat) (rand : Nat → Nat)
    (h : 0 < ns) : ∀ kv ∈ create_mock_cluster_mapping files ns rand, kv.2 < ns := by
  intro kv hkv
  unfold create_mock_cluster_mapping at hkv
  rw [List.mem_map] at hkv
  obtain ⟨p, hp, rfl⟩ := hkv
  show 0 + rand p.1 % (ns - 1 - 0 + 1) < ns
  simp only [Nat.sub_zero, Nat.zero_add]
  rw [Nat.sub_add_cancel h]
  exact Nat.mod_lt _ h

/-- The keys of the mock cluster mapping are exactly the `.jpg` entries of
the data-directory listing. -/
theorem create_mock_keys (files : List String) (ns : Nat) (rand : Nat → Nat) :
    (create_mock_cluster_mapping files ns rand).map Prod.fst =
      files.filter (fun f => strEndsWith f ".jpg") := by
  unfold create_mock_cluster_mapping
  rw [List.map_map]
  exact List.enum_map_snd _

/-! ## Claim theorems -/

/-- C7: for generator outputs in [-1, 1], the denormalization `(x + 1) / 2`
followed by clamping to [0, 1] lands in [0, 1], and under that precondition
the clamp is the identity, so denormalization is a pure, lossless rescale. -/
theorem denormalize_pure_rescale (x : Rat) (h1 : -1 ≤ x) (h2 : x ≤ 1) :
    0 ≤ (x + 1) / 2 ∧ (x + 1) / 2 ≤ 1 ∧ denormalize x = (x + 1) / 2 := by
  have ha : 0 ≤ (x + 1) / 2 := by linarith
  have hb : (x + 1) / 2 ≤ 1 := by linarith
  refine ⟨ha, hb, ?_⟩
  unfold denormalize clampRat
  rw [min_eq_left hb, max_eq_right ha]

/-- Witness for C7 at the concrete entry x = 1/2. -/
theorem denormalize_pure_rescale_witness :
    0 ≤ ((1 / 2 : Rat) + 1) / 2 ∧ ((1 / 2 : Rat) + 1) / 2 ≤ 1 ∧
      denormalize (1 / 2) = ((1 / 2 : Rat) + 1) / 2 :=
  denormalize_pure_rescale (1 / 2) (by norm_num) (by norm_num)

/-- C9: every style id outside [0, 14] makes generate_variations.py print an
explanatory message and exit with status 1, before any output directory is
created or any image is produced. -/
theorem style_out_of_range_fatal (style : Int) (dir : String)
    (results : List (Except String String)) (h : style < 0 ∨ 14 < style) :
    generate_variations_main style dir results =
      (.exited 1,
       [GVEvent.printed "Oops! Style ID must be between 0 and 14.",
        GVEvent.printed "We discovered exactly 15 unique art styles (0-14)."]) ∧
    (∀ d, GVEvent.madeOutputDir d ∉ (generate_variations_main style dir results).2) ∧
    (∀ p, GVEvent.savedImage p ∉ (generate_variations_main style dir results).2) := by
  have he : generate_variations_main style dir results =
      (.exited 1,
       [GVEvent.printed "Oops! Style ID must be between 0 and 14.",
        GVEvent.printed "We discovered exactly 15 unique art styles (0-14)."]) := by
    unfold generate_variations_main
    rw [if_pos h]
  refine ⟨he, ?_, ?_⟩ <;> intro a <;> rw [he] <;> simp

/-- Witness for C9 at the out-of-range style id 15. -/
theorem style_out_of_range_fatal_witness :
    generate_variations_main 15 "art_variations" [] =
      (.exited 1,
       [GVEvent.printed "Oops! Style ID must be between 0 and 14.",
        GVEvent.printed "We discovered exactly 15 unique art styles (0-14)."]) ∧
    (∀ d, GVEvent.madeOutputDir d ∉ (generate_variations_main 15 "art_variations" []).2) ∧
    (∀ p, GVEvent.savedImage p ∉ (generate_variations_main 15 "art_variations" []).2) :=
  style_out_of_range_fatal 15 "art_variations" [] (Or.inr (by norm_num))

/-- C10: the backend's /generate endpoint builds option names the variation
script does not accept ('--output-dir', '--num-variations', '--no-db'), so
the subprocess always fails argument parsing and the endpoint always answers
with a 500 error, never with image paths. -/
theorem backend_generate_always_500 (style : Int) (variation : String)
    (numVariations : Int) (seed : Option Int) (bodyExit : Nat)
    (stdoutLines : List String) (stderrText : String) :
    generate_art_endpoint style variation numVariations seed bodyExit stdoutLines stderrText =
      ApiResponse.serverError 500 stderrText ∧
    recognizesOption "--output-dir" = false ∧
    recognizesOption "--num-variations" = false ∧
    recognizesOption "--no-db" = false ∧
    recognizesOption "--output_dir" = true ∧
    recognizesOption "--num_variations" = true := by
  refine ⟨?_, by decide, by decide, by decide, by decide, by decide⟩
  have hmem : "--output-dir" ∈
      optionTokens (build_generate_cmd style variation numVariations seed "generated_api") := by
    refine List.mem_filter.mpr ⟨?_, by decide⟩
    cases seed <;> simp [build_generate_cmd]
  have hall : argparse_accepts
      (build_generate_cmd style variation numVariations seed "generated_api") = false :=
    all_false_of_mem hmem (by decide)
  simp [generate_art_endpoint, run_generate_variations, hall]

/-- C1: the imbalance ratio is max(count)/min(count), and `lambda_style` is
multiplied by exactly 1.5 precisely when that ratio strictly exceeds 5, with
ratio 10 for counts {10, 10, 100} and ratio 1 for counts {50, 50, 50}. -/
theorem imbalance_adjust_iff (counts : List Nat) (args : Args)
    (hne : counts ≠ []) (hpos : ∀ c ∈ counts, 0 < c) :
    (5 < imbalance_ratio counts →
      (adjust_lambda_style counts args).lambda_style = args.lambda_style * (3 / 2)) ∧
    (imbalance_ratio counts ≤ 5 → adjust_lambda_style counts args = args) ∧
    imbalance_ratio [10, 10, 100] = 10 ∧
    imbalance_ratio [50, 50, 50] = 1 := by
  refine ⟨?_, ?_, ?_, ?_⟩
  · intro h
    unfold adjust_lambda_style
    rw [if_pos h]
  · intro h
    unfold adjust_lambda_style
    rw [if_neg (not_lt.mpr h)]
  · have hmax : listMaxN [10, 10, 100] = 100 := rfl
    have hmin : listMinN [10, 10, 100] = 10 := rfl
    unfold imbalance_ratio
    rw [hmax, hmin]
    norm_num
  · have hmax : listMaxN [50, 50, 50] = 50 := rfl
    have hmin : listMinN [50, 50, 50] = 50 := rfl
    unfold imbalance_ratio
    rw [hmax, hmin]
    norm_num

/-- Witness for C1 at the concrete counts {10, 10, 100} and the default
configuration. -/
theorem imbalance_adjust_iff_witness :
    (5 < imbalance_ratio [10, 10, 100] →
      (adjust_lambda_style [10, 10, 100] defaultArgs).lambda_style =
        defaultArgs.lambda_style * (3 / 2)) ∧
    (imbalance_ratio [10, 10, 100] ≤ 5 →
      adjust_lambda_style [10, 10, 100] defaultArgs = defaultArgs) ∧
    imbalance_ratio [10, 10, 100] = 10 ∧
    imbalance_ratio [50, 50, 50] = 1 :=
  imbalance_adjust_iff [10, 10, 100] defaultArgs (by decide) (by decide)

/-- C2: when a resume path is supplied but absent (and not recreated as the
mapping file), the run warns and proceeds with fresh state at epoch 0; when
the file exists (and survives directory clearing) the outcome is dictated by
the load — a loading exception crashes the run — so 'not found' and
'explicit mismatch' are handled differently. -/
theorem resume_not_found_vs_mismatch (env : Env) (args : Args) (p : String)
    (n : Nat) (args2 : Args) (evS : List Event)
    (hd : env.pathExists (dataDirOf env args) = true)
    (hl : env.loaderResult = .ok n)
    (hs : statsPhase ((mappingPhase env args).1 (statsPathOf env))
            env.statsContent args = (some args2, evS))
    (hr : args.resume = some p)
    (hnin : isInside (saveDirOf env args) p = false)
    (hnm : p ≠ mappingPathOf env args) :
    ((trainMain env args).1 =
      if env.pathExists p then
        match env.loadCheckpoint p with
        | .ok e => Outcome.trained e args2 n
        | .error m => Outcome.crashed m
      else Outcome.trained 0 args2 n) ∧
    (env.pathExists p = false →
      Event.printed (warnNotFound p) ∈ (trainMain env args).2) := by
  have hfs1 : (mappingPhase env args).1 p = env.pathExists p :=
    mappingPhase_fst_ne env args p hnm
  rw [trainMain_reach env args n args2 evS hd hl hs]
  unfold afterStats
  cases hsd : (mappingPhase env args).1 (saveDirOf env args) with
  | true =>
    have hfs2 : rmtreeFs (mappingPhase env args).1 (saveDirOf env args) p =
        env.pathExists p := by
      simp [rmtreeFs, hnin, hfs1]
    cases hp : env.pathExists p with
    | false =>
      simp only [hsd, if_true]
      rw [resumePhase_eq _ env args p hr]
      simp [hfs2, hp]
    | true =>
      simp only [hsd, if_true]
      rw [resumePhase_eq _ env args p hr]
      cases hload : env.loadCheckpoint p with
      | ok e => simp [hfs2, hp, hload]
      | error m => simp [hfs2, hp, hload]
  | false =>
    cases hp : env.pathExists p with
    | false =>
      simp only [hsd]
      rw [resumePhase_eq _ env args p hr]
      simp [hfs1, hp]
    | true =>
      simp only [hsd]
      rw [resumePhase_eq _ env args p hr]
      cases hload : env.loadCheckpoint p with
      | ok e => simp [hfs1, hp, hload]
      | error m => simp [hfs1, hp, hload]

/-- Concrete environment used to witness C2: the dataset directory and the
cluster mapping exist, the loader yields 4 samples, cluster statistics are
absent, the save directory does not yet exist, and the requested resume
checkpoint is absent. -/
def c2Env : Env where
  projectRoot := "ROOT"
  pathExists := fun p =>
    p == "ROOT/abstract_art_512" ||
    p == "ROOT/clustering_results/cluster_mapping.json"
  listing := fun _ => []
  rand := fun _ => 0
  statsContent := []
  loaderResult := .ok 4
  loadCheckpoint := fun _ => .error "incompatible checkpoint"

/-- Arguments used to witness C2: resume explicitly requested at a path that
does not exist. -/
def c2Args : Args := { defaultArgs with resume := some "old_runs/checkpoint.pth" }

/-- Witness for C2: at `c2Env`/`c2Args` the resume file is absent, and the
run warns and trains from epoch 0. -/
theorem resume_not_found_vs_mismatch_witness :
    ((trainMain c2Env c2Args).1 =
      if c2Env.pathExists "old_runs/checkpoint.pth" then
        match c2Env.loadCheckpoint "old_runs/checkpoint.pth" with
        | .ok e => Outcome.trained e c2Args 4
        | .error m => Outcome.crashed m
      else Outcome.trained 0 c2Args 4) ∧
    (c2Env.pathExists "old_runs/checkpoint.pth" = false →
      Event.printed (warnNotFound "old_runs/checkpoint.pth") ∈ (trainMain c2Env c2Args).2) :=
  resume_not_found_vs_mismatch c2Env c2Args "old_runs/checkpoint.pth" 4 c2Args []
    (by decide) rfl rfl rfl (by decide) (by decide)

/-- C4 (amended): the save directory is cleared before the trainer is
constructed and before resume is processed, so a resume path inside the save
directory is gone at load time: the run prints a checkpoint-not-found warning
and starts from fresh weights at epoch 0, never loading the checkpoint. -/
theorem cleared_save_dir_defeats_resume (env : Env) (args : Args) (p : String)
    (n : Nat) (args2 : Args) (evS : List Event)
    (hd : env.pathExists (dataDirOf env args) = true)
    (hl : env.loaderResult = .ok n)
    (hs : statsPhase ((mappingPhase env args).1 (statsPathOf env))
            env.statsContent args = (some args2, evS))
    (hr : args.resume = some p)
    (hsd : (mappingPhase env args).1 (saveDirOf env args) = true)
    (hin : isInside (saveDirOf env args) p = true) :
    ∃ pre,
      trainMain env args = (.trained 0 args2 n,
        pre ++ [Event.printed clearingMsg, Event.clearedSaveDir, Event.initTrainer,
                Event.printed (warnNotFound p), Event.savedConfig,
                Event.startedTraining]) ∧
      (∀ q k, Event.loadedCheckpoint q k ∉ pre) ∧
      (∀ q k, Event.loadedCheckpoint q k ∉ (trainMain env args).2) := by
  have hfs2 : rmtreeFs (mappingPhase env args).1 (saveDirOf env args) p = false := by
    simp [rmtreeFs, hin]
  have hmain : trainMain env args = (.trained 0 args2 n,
      ((mappingPhase env args).2 ++
        [Event.printed "Creating data loader...", Event.createdLoader n] ++ evS) ++
      [Event.printed clearingMsg, Event.clearedSaveDir, Event.initTrainer,
       Event.printed (warnNotFound p), Event.savedConfig, Event.startedTraining]) := by
    rw [trainMain_reach env args n args2 evS hd hl hs]
    unfold afterStats
    simp only [hsd, if_true]
    rw [resumePhase_eq _ env args p hr]
    simp [hfs2, List.append_assoc]
  refine ⟨(mappingPhase env args).2 ++
    [Event.printed "Creating data loader...", Event.createdLoader n] ++ evS,
    hmain, ?_, ?_⟩
  · intro q k
    have h1 := (mappingPhase_events env args).2.2 q k
    have h2 := statsPhase_no_load ((mappingPhase env args).1 (statsPathOf env))
      env.statsContent args q k
    rw [hs] at h2
    simp only [List.mem_append, List.mem_cons, List.not_mem_nil]
    push_neg
    refine ⟨⟨h1, by simp⟩, h2⟩
  · intro q k
    rw [hmain]
    have h1 := (mappingPhase_events env args).2.2 q k
    have h2 := statsPhase_no_load ((mappingPhase env args).1 (statsPathOf env))
      env.statsContent args q k
    rw [hs] at h2
    simp only [List.mem_append, List.mem_cons, List.not_mem_nil]
    push_neg
    exact ⟨⟨⟨h1, by simp⟩, h2⟩, by simp⟩

/-- Concrete environment used to settle C4: dataset, cluster mapping, the
save directory and a checkpoint inside it all exist; cluster statistics are
absent; the loader yields 4 samples. -/
def c4Env : Env where
  projectRoot := "ROOT"
  pathExists := fun p =>
    p == "ROOT/abstract_art_512" ||
    p == "ROOT/clustering_results/cluster_mapping.json" ||
    p == "ROOT/gan_training" ||
    p == "ROOT/gan_training/checkpoints/ckpt.pth"
  listing := fun _ => []
  rand := fun _ => 0
  statsContent := []
  loaderResult := .ok 4
  loadCheckpoint := fun _ => .ok 7

/-- Arguments used to settle C4: resume is requested at a checkpoint path
lying inside the save directory. -/
def c4Args : Args :=
  { defaultArgs with resume := some "ROOT/gan_training/checkpoints/ckpt.pth" }

/-- C4 counterexample: in a run whose requested resume checkpoint exists at
startup inside the save directory, the fallback to fresh weights is not
silent — the checkpoint-not-found warning is printed — while the run does
start from epoch 0. -/
theorem silent_fresh_start_counterexample :
    c4Args.resume = some "ROOT/gan_training/checkpoints/ckpt.pth" ∧
    c4Env.pathExists "ROOT/gan_training/checkpoints/ckpt.pth" = true ∧
    isInside (saveDirOf c4Env c4Args) "ROOT/gan_training/checkpoints/ckpt.pth" = true ∧
    Event.printed (warnNotFound "ROOT/gan_training/checkpoints/ckpt.pth") ∈
      (trainMain c4Env c4Args).2 ∧
    (trainMain c4Env c4Args).1 = Outcome.trained 0 c4Args 4 :=
  ⟨rfl, by decide, by decide, by decide, rfl⟩

/-- Witness for C4's amended theorem at the concrete run `c4Env`/`c4Args`. -/
theorem cleared_save_dir_defeats_resume_witness :
    ∃ pre,
      trainMain c4Env c4Args = (.trained 0 c4Args 4,
        pre ++ [Event.printed clearingMsg, Event.clearedSaveDir, Event.initTrainer,
                Event.printed (warnNotFound "ROOT/gan_training/checkpoints/ckpt.pth"),
                Event.savedConfig, Event.startedTraining]) ∧
      (∀ q k, Event.loadedCheckpoint q k ∉ pre) ∧
      (∀ q k, Event.loadedCheckpoint q k ∉ (trainMain c4Env c4Args).2) :=
  cleared_save_dir_defeats_resume c4Env c4Args "ROOT/gan_training/checkpoints/ckpt.pth"
    4 c4Args [] (by decide) rfl rfl rfl (by decide) (by decide)

/-- C5: when the cluster mapping is absent at startup, the script warns,
synthesizes a mapping assigning every `.jpg` file a style id in [0,
num_styles), persists it at the configured mapping path, and continues into
training. -/
theorem mock_mapping_on_absent (env : Env) (args : Args) (n : Nat)
    (args2 : Args) (evS : List Event)
    (hd : env.pathExists (dataDirOf env args) = true)
    (hm : env.pathExists (mappingPathOf env args) = false)
    (hns : 0 < args.num_styles)
    (hl : env.loaderResult = .ok n)
    (hs : statsPhase ((mappingPhase env args).1 (statsPathOf env))
            env.statsContent args = (some args2, evS))
    (hr : args.resume = none) :
    Event.printed ("Warning: Cluster mapping not found at " ++ mappingPathOf env args) ∈
      (trainMain env args).2 ∧
    Event.wroteMockMapping (create_mock_cluster_mapping
      (env.listing (dataDirOf env args)) args.num_styles env.rand) ∈
      (trainMain env args).2 ∧
    (∀ kv ∈ create_mock_cluster_mapping (env.listing (dataDirOf env args))
        args.num_styles env.rand, kv.2 < args.num_styles) ∧
    (create_mock_cluster_mapping (env.listing (dataDirOf env args))
        args.num_styles env.rand).map Prod.fst =
      (env.listing (dataDirOf env args)).filter (fun f => strEndsWith f ".jpg") ∧
    (mappingPhase env args).1 (mappingPathOf env args) = true ∧
    (trainMain env args).1 = Outcome.trained 0 args2 n := by
  have hmap2 : (mappingPhase env args).2 =
      [Event.printed ("Warning: Cluster mapping not found at " ++ mappingPathOf env args),
       Event.printed "Creating mock cluster mapping for testing...",
       Event.wroteMockMapping (create_mock_cluster_mapping
         (env.listing (dataDirOf env args)) args.num_styles env.rand),
       Event.printed ("Mock cluster mapping saved to " ++ mappingPathOf env args)] := by
    simp [mappingPhase, hm]
  have hmap1 : (mappingPhase env args).1 (mappingPathOf env args) = true := by
    simp [mappingPhase, hm]
  rw [trainMain_reach env args n args2 evS hd hl hs]
  unfold afterStats
  cases hsd : (mappingPhase env args).1 (saveDirOf env args) with
  | true =>
    simp only [hsd, if_true]
    rw [resumePhase_none _ env args hr]
    refine ⟨?_, ?_, create_mock_values_lt _ _ _ hns, create_mock_keys _ _ _, hmap1, rfl⟩ <;>
      simp [hmap2]
  | false =>
    simp only [hsd]
    rw [resumePhase_none _ env args hr]
    refine ⟨?_, ?_, create_mock_values_lt _ _ _ hns, create_mock_keys _ _ _, hmap1, rfl⟩ <;>
      simp [hmap2]

/-- Concrete environment used to witness C5: the dataset directory exists and
holds two `.jpg` files and one `.txt` file, while the cluster mapping and the
statistics file are absent. -/
def c5Env : Env where
  projectRoot := "ROOT"
  pathExists := fun p => p == "ROOT/abstract_art_512"
  listing := fun _ => ["a.jpg", "notes.txt", "b.jpg"]
  rand := fun i => 7 * i + 3
  statsContent := []
  loaderResult := .ok 2
  loadCheckpoint := fun _ => .ok 0

/-- Witness for C5 at the concrete run `c5Env`/`defaultArgs`. -/
theorem mock_mapping_on_absent_witness :
    Event.printed ("Warning: Cluster mapping not found at " ++
      mappingPathOf c5Env defaultArgs) ∈ (trainMain c5Env defaultArgs).2 ∧
    Event.wroteMockMapping (create_mock_cluster_mapping
      (c5Env.listing (dataDirOf c5Env defaultArgs)) defaultArgs.num_styles c5Env.rand) ∈
      (trainMain c5Env defaultArgs).2 ∧
    (∀ kv ∈ create_mock_cluster_mapping (c5Env.listing (dataDirOf c5Env defaultArgs))
        defaultArgs.num_styles c5Env.rand, kv.2 < defaultArgs.num_styles) ∧
    (create_mock_cluster_mapping (c5Env.listing (dataDirOf c5Env defaultArgs))
        defaultArgs.num_styles c5Env.rand).map Prod.fst =
      (c5Env.listing (dataDirOf c5Env defaultArgs)).filter
        (fun f => strEndsWith f ".jpg") ∧
    (mappingPhase c5Env defaultArgs).1 (mappingPathOf c5Env defaultArgs) = true ∧
    (trainMain c5Env defaultArgs).1 = Outcome.trained 0 defaultArgs 2 :=
  mock_mapping_on_absent c5Env defaultArgs 2 defaultArgs []
    (by decide) (by decide) (by decide) rfl rfl rfl

/-- C6: a missing dataset directory makes the run print a descriptive error
and exit with status 1 immediately — before the cluster mapping is touched,
the loader is built or trainer state exists — and a loader exception is
likewise reported and fatal. -/
theorem missing_dataset_or_loader_fatal (env : Env) (args : Args) (e : String) :
    (env.pathExists (dataDirOf env args) = false →
      trainMain env args = (.exited 1,
        [Event.printed ("Error: Dataset directory not found at " ++ dataDirOf env args)])) ∧
    (env.pathExists (dataDirOf env args) = true → env.loaderResult = .error e →
      (trainMain env args).1 = .exited 1 ∧
      Event.printed ("Error creating data loader: " ++ e) ∈ (trainMain env args).2 ∧
      Event.initTrainer ∉ (trainMain env args).2 ∧
      Event.startedTraining ∉ (trainMain env args).2) := by
  constructor
  · intro hd
    simp [trainMain, hd]
  · intro hd hl
    have hmain : trainMain env args = (.exited 1, (mappingPhase env args).2 ++
        [Event.printed "Creating data loader...",
         Event.printed ("Error creating data loader: " ++ e)]) := by
      simp [trainMain, hd, hl]
    rw [hmain]
    refine ⟨rfl, by simp, ?_, ?_⟩
    · have h1 := (mappingPhase_events env args).1
      simp [List.mem_append, h1]
    · have h2 := (mappingPhase_events env args).2.1
      simp [List.mem_append, h2]

/-- Concrete environment used to witness C6's missing-dataset case: nothing
exists on disk. -/
def c6EnvA : Env where
  projectRoot := "ROOT"
  pathExists := fun _ => false
  listing := fun _ => []
  rand := fun _ => 0
  statsContent := []
  loaderResult := .ok 0
  loadCheckpoint := fun _ => .ok 0

/-- Concrete environment used to witness C6's loader-failure case: the
dataset directory and mapping exist but loader construction raises. -/
def c6EnvB : Env where
  projectRoot := "ROOT"
  pathExists := fun p =>
    p == "ROOT/abstract_art_512" ||
    p == "ROOT/clustering_results/cluster_mapping.json"
  listing := fun _ => []
  rand := fun _ => 0
  statsContent := []
  loaderResult := .error "corrupt image index"
  loadCheckpoint := fun _ => .ok 0

/-- Witness for C6, exercising both the missing-dataset exit and the
loader-exception exit at concrete runs. -/
theorem missing_dataset_or_loader_fatal_witness :
    trainMain c6EnvA defaultArgs = (.exited 1,
      [Event.printed ("Error: Dataset directory not found at " ++
        dataDirOf c6EnvA defaultArgs)]) ∧
    ((trainMain c6EnvB defaultArgs).1 = .exited 1 ∧
      Event.printed ("Error creating data loader: " ++ "corrupt image index") ∈
        (trainMain c6EnvB defaultArgs).2 ∧
      Event.initTrainer ∉ (trainMain c6EnvB defaultArgs).2 ∧
      Event.startedTraining ∉ (trainMain c6EnvB defaultArgs).2) :=
  ⟨(missing_dataset_or_loader_fatal c6EnvA defaultArgs "corrupt image index").1 rfl,
   (missing_dataset_or_loader_fatal c6EnvB defaultArgs "corrupt image index").2
     (by decide) rfl⟩

/-- C8: when cluster_stats.json is absent the imbalance-based adaptation is
skipped entirely — the configuration entering training equals the configured
one, `lambda_style` included — and the run proceeds without error. -/
theorem stats_absent_skips_adaptation (env : Env) (args : Args) (n : Nat)
    (hd : env.pathExists (dataDirOf env args) = true)
    (hstats : env.pathExists (statsPathOf env) = false)
    (hne2 : statsPathOf env ≠ mappingPathOf env args)
    (hl : env.loaderResult = .ok n)
    (hr : args.resume = none) :
    (trainMain env args).1 = Outcome.trained 0 args n := by
  have hfs : (mappingPhase env args).1 (statsPathOf env) =
      env.pathExists (statsPathOf env) := mappingPhase_fst_ne env args _ hne2
  have hsp : statsPhase ((mappingPhase env args).1 (statsPathOf env))
      env.statsContent args = (some args, []) := by
    rw [hfs, hstats]
    simp [statsPhase]
  rw [trainMain_reach env args n args [] hd hl hsp]
  unfold afterStats
  cases hsd : (mappingPhase env args).1 (saveDirOf env args) <;>
    simp [hsd, resumePhase_none _ env args hr]

/-- Witness for C8 at the concrete run `c2Env`/`defaultArgs`, whose
statistics file is absent. -/
theorem stats_absent_skips_adaptation_witness :
    (trainMain c2Env defaultArgs).1 = Outcome.trained 0 defaultArgs 4 :=
  stats_absent_skips_adaptation c2Env defaultArgs 4 (by decide) (by decide)
    (by decide) rfl rfl

/-- Concrete generator parameter-name list used to settle C3. -/
def c3ExpectedKeys : List String := ["embed.weight", "conv.weight"]

/-- Concrete structured full checkpoint used to settle C3. -/
def c3FullCkpt : FullCheckpoint where
  epoch := 5
  generator_state_dict := [("embed.weight", 1), ("conv.weight", 2)]
  discriminator_state_dict := [("d.weight", 3)]

/-- C3 counterexample: on a structured full checkpoint the loader succeeds,
but the first form it attempts is the bare state-dict form, not the
structured form — the claimed attempt order is reversed. -/
theorem load_order_counterexample :
    (load_generator c3ExpectedKeys (.checkpoint c3FullCkpt)).attempts =
      [LoadForm.bareForm, LoadForm.fullForm] ∧
    (load_generator c3ExpectedKeys (.checkpoint c3FullCkpt)).attempts.head? ≠
      some LoadForm.fullForm ∧
    (load_generator c3ExpectedKeys (.checkpoint c3FullCkpt)).loaded =
      some [("embed.weight", 1), ("conv.weight", 2)] := by
  refine ⟨by decide, by decide, by decide⟩

/-- C3 (amended): the loader attempts the bare generator-weights form first
and falls back to the structured full-checkpoint form, so either on-disk form
loads successfully without the caller knowing which form is present. -/
theorem load_either_form_bare_first (expected : List String) (w : Weights)
    (c : FullCheckpoint) (hw : keysOf w = expected)
    (hc : keysOf c.generator_state_dict = expected)
    (hne : topLevelKeys (.checkpoint c) ≠ expected) :
    load_generator expected (.stateDict w) =
      { loaded := some w, attempts := [.bareForm], exitCode := none } ∧
    load_generator expected (.checkpoint c) =
      { loaded := some c.generator_state_dict
        attempts := [.bareForm, .fullForm]
        exitCode := none } := by
  constructor
  · simp [load_generator, hw]
  · simp [load_generator, hc, hne]

/-- Witness for C3's amended theorem at concrete files of each form. -/
theorem load_either_form_bare_first_witness :
    load_generator c3ExpectedKeys (.stateDict [("embed.weight", 1), ("conv.weight", 2)]) =
      { loaded := some [("embed.weight", 1), ("conv.weight", 2)]
        attempts := [.bareForm]
        exitCode := none } ∧
    load_generator c3ExpectedKeys (.checkpoint c3FullCkpt) =
      { loaded := some c3FullCkpt.generator_state_dict
        attempts := [.bareForm, .fullForm]
        exitCode := none } :=
  load_either_form_bare_first c3ExpectedKeys [("embed.weight", 1), ("conv.weight", 2)]
    c3FullCkpt (by decide) (by decide) (by decide)

end AbstractArt
